import Mathlib

/-!
Shallow embedding of the LlamalyticsHub repository-audit core and proofs of
the specification claims about it.  The embedding covers:

* the GitHub HTTP client retry loop (`github_client/github_client.py`,
  `AsyncGitHubClient.get`, and the variant in `github_audit.py`);
* the content-addressed analysis cache helpers (`utils/helpers.py`:
  `safe_name`, `hash_content` key use, `get_cache_path`);
* the cached parallel analysis driver (`utils/helpers.py`:
  `analyze_files_parallel`) and the synchronous per-file analyzer
  (`github_audit.py`: `analyze_code_files`);
* the async batch analysis orchestrator (`github_audit.py`:
  `async_analyze_code_files`) with its streaming and retry pass;
* the pull-request snapshot fetcher (`github_client/github_client.py`:
  `async_fetch_repo_data`, PR branch).

External library calls (HTTP, the inference server, SHA-256, base64 and the
regex section parser) are modelled as explicit oracle parameters; everything
the Python code itself computes is translated directly.
-/

namespace Llamalytics

/-! ## Python string primitives used by the sources -/

/-- ASCII whitespace characters removed by Python `str.strip()`. -/
def isPySpace (c : Char) : Bool :=
  c = ' ' || c = '\t' || c = '\n' || c = '\r' || c = '\x0B' || c = '\x0C'

/-- Python `str.strip()` on the character list: drop whitespace at both ends. -/
def pyStripL (l : List Char) : List Char :=
  ((l.dropWhile isPySpace).reverse.dropWhile isPySpace).reverse

/-- Python `content.strip()`. -/
def pyStrip (s : String) : String := String.mk (pyStripL s.toList)

/-- Python slicing `s[:n]`. -/
def pyTake (s : String) (n : Nat) : String := String.mk (s.toList.take n)

/-- Python `s.count(c)` for a single character. -/
def countChar (s : String) (c : Char) : Nat := s.toList.count c

/-- Does the first list start with the second list? -/
def listStartsWith : List Char → List Char → Bool
  | _, [] => true
  | [], _ :: _ => false
  | a :: as, b :: bs => a = b && listStartsWith as bs

/-- Helper for substring search: does `needle` occur in `hay`? -/
def hasSubAux (needle : List Char) : List Char → Bool
  | [] => listStartsWith [] needle
  | c :: rest => listStartsWith (c :: rest) needle || hasSubAux needle rest

/-- Python `needle in hay` on strings (substring test). -/
def strHasSub (hay needle : String) : Bool := hasSubAux needle.toList hay.toList

/-- Python single-character `str.replace(a, b)` as a character map. -/
def replaceChar (l : List Char) (a b : Char) : List Char :=
  l.map (fun c => if c = a then b else c)

/-- Python `'\n'.join(parts)`. -/
def joinNl : List String → String
  | [] => ""
  | [s] => s
  | s :: rest => s ++ "\n" ++ joinNl rest

/-! ## JSON values returned by the GitHub API -/

/-- A JSON value as produced by `resp.json()`. -/
inductive JVal where
  | s (v : String)
  | n (v : Int)
  | b (v : Bool)
  | null
  | arr (xs : List JVal)
  | obj (kvs : List (String × JVal))

/-- Python `d['key']` / `'key' in d` on a JSON object: field lookup. -/
def JVal.look : JVal → String → Option JVal
  | .obj kvs, k => kvs.lookup k
  | _, _ => none

/-- Extract a JSON string (Python code indexing a field it expects to be `str`). -/
def JVal.asStr : JVal → Option String
  | .s v => some v
  | _ => none

/-- Extract a JSON array (Python code iterating over a list response). -/
def JVal.asArr : JVal → Option (List JVal)
  | .arr xs => some xs
  | _ => none

/-! ## The GitHub client retry loop

`AsyncGitHubClient.get` (github_client/github_client.py lines 115-141) runs
`for attempt in range(retries)`: a 2xx response returns its JSON; a 403
response with `X-RateLimit-Remaining == '0'` sleeps
`max(reset - int(time.time()), 1)` seconds and `continue`s; any exception
(transport failure or `raise_for_status` on another non-2xx) is caught,
`2 ** attempt` seconds are slept, and the loop continues.  After the loop a
`RuntimeError` is raised.  Responses are modelled by an oracle giving the
classified outcome of the `k`-th HTTP call; the clock advances by the slept
durations. -/

/-- Classified outcome of one HTTP call made by the client. -/
inductive GHResp where
  | ok (body : JVal)
  | rateLimited (reset : Nat)
  | httpError
  | transportError

/-- Is the response one of the two exception-producing outcomes? -/
def GHResp.isErr : GHResp → Bool
  | .httpError => true
  | .transportError => true
  | _ => false

/-- Result of a full `get` invocation: the returned JSON or the terminal
`RuntimeError`, the number of HTTP calls made, the list of sleep durations in
order, and the final clock value. -/
structure GetOut where
  result : Except String JVal
  calls : Nat
  sleeps : List Nat
  clock : Nat

/-- The `for attempt in range(retries)` loop of `AsyncGitHubClient.get` in
github_client/github_client.py.  `remaining` counts loop iterations left,
`attempt` is the loop variable, `calls` indexes the response oracle, `clock`
is the current epoch time (advanced by sleeping). -/
def ghGetLoop (respF : Nat → GHResp) (endpoint : String) (retries : Nat) :
    Nat → Nat → Nat → Nat → List Nat → GetOut
  | 0, _, calls, clock, sleeps =>
    ⟨.error ("GitHub API GET " ++ endpoint ++ " failed after " ++
        toString retries ++ " attempts."),
      calls, sleeps, clock⟩
  | remaining + 1, attempt, calls, clock, sleeps =>
    match respF calls with
    | .ok j => ⟨.ok j, calls + 1, sleeps, clock⟩
    | .rateLimited reset =>
      let wait := max (reset - clock) 1
      ghGetLoop respF endpoint retries remaining (attempt + 1) (calls + 1)
        (clock + wait) (sleeps ++ [wait])
    | .httpError =>
      ghGetLoop respF endpoint retries remaining (attempt + 1) (calls + 1)
        (clock + 2 ^ attempt) (sleeps ++ [2 ^ attempt])
    | .transportError =>
      ghGetLoop respF endpoint retries remaining (attempt + 1) (calls + 1)
        (clock + 2 ^ attempt) (sleeps ++ [2 ^ attempt])

/-- `AsyncGitHubClient.get(endpoint, params, retries)` from
github_client/github_client.py, with the response oracle and starting clock
made explicit. -/
def ghGet (respF : Nat → GHResp) (endpoint : String) (retries : Nat)
    (clock0 : Nat) : GetOut :=
  ghGetLoop respF endpoint retries retries 0 0 clock0 []

/-! ## The github_audit.py variant of the client

`github_audit.py` defines its own `AsyncGitHubClient.get` (lines 22-38) with
the same body, but the module's import list (lines 1-10) does not import
`time`, so evaluating `time.time()` in the rate-limit branch raises
`NameError`.  The `NameError` is raised inside the `try` block and caught by
the generic `except Exception` handler, which sleeps `2 ** attempt` seconds
and lets the loop continue. -/

/-- Module names imported by github_audit.py (lines 1-10). -/
def githubAuditImportedModules : List String :=
  ["os", "github", "ollama_code_llama", "typing", "re", "loguru",
   "rich.console", "asyncio", "httpx", "rich.progress"]

/-- Does the name `time` resolve inside github_audit.py? -/
def auditHasTime : Bool := githubAuditImportedModules.contains "time"

/-- The retry loop of github_audit.py's `AsyncGitHubClient.get`.  In the
rate-limit branch, if `time` resolved the code would sleep until the reset
epoch; since it does not, the branch raises `NameError`, which the generic
handler turns into a `2 ** attempt` sleep, and the loop continues (consuming
the attempt). -/
def auditGetLoop (respF : Nat → GHResp) (endpoint : String) (retries : Nat) :
    Nat → Nat → Nat → Nat → List Nat → GetOut
  | 0, _, calls, clock, sleeps =>
    ⟨.error ("GitHub API GET " ++ endpoint ++ " failed after " ++
        toString retries ++ " attempts."),
      calls, sleeps, clock⟩
  | remaining + 1, attempt, calls, clock, sleeps =>
    match respF calls with
    | .ok j => ⟨.ok j, calls + 1, sleeps, clock⟩
    | .rateLimited reset =>
      if auditHasTime then
        let wait := max (reset - clock) 1
        auditGetLoop respF endpoint retries remaining (attempt + 1) (calls + 1)
          (clock + wait) (sleeps ++ [wait])
      else
        auditGetLoop respF endpoint retries remaining (attempt + 1) (calls + 1)
          (clock + 2 ^ attempt) (sleeps ++ [2 ^ attempt])
    | .httpError =>
      auditGetLoop respF endpoint retries remaining (attempt + 1) (calls + 1)
        (clock + 2 ^ attempt) (sleeps ++ [2 ^ attempt])
    | .transportError =>
      auditGetLoop respF endpoint retries remaining (attempt + 1) (calls + 1)
        (clock + 2 ^ attempt) (sleeps ++ [2 ^ attempt])

/-- `AsyncGitHubClient.get` from github_audit.py. -/
def auditGet (respF : Nat → GHResp) (endpoint : String) (retries : Nat)
    (clock0 : Nat) : GetOut :=
  auditGetLoop respF endpoint retries retries 0 0 clock0 []

/-! ## Cache naming (utils/helpers.py) -/

/-- `safe_name` (utils/helpers.py lines 55-67): replace each character of
`<>:"/\|?*@` with an underscore, then replace spaces with underscores. -/
def safe_name (name : String) : String :=
  String.mk (replaceChar
    (name.toList.map (fun c =>
      if c ∈ ['<', '>', ':', '"', '/', '\\', '|', '?', '*', '@']
      then '_' else c))
    ' ' '_')

/-- Python `branch or 'default'`: `branch` is falsy when `None` or empty. -/
def branchOrDefault : Option String → String
  | none => "default"
  | some b => if b.toList.isEmpty then "default" else b

/-- `pr_part = f'_pr{n}' if pull_request_number else ''`: the suffix is
empty when the PR number is `None` or zero (both falsy). -/
def prSuffix : Option Nat → String
  | some n => if n = 0 then "" else "_pr" ++ toString n
  | none => ""

/-- The cache scope directory name built inside `get_cache_path`
(utils/helpers.py lines 110-128): `safe_repo` and `safe_branch` replace only
the character `/` with `_`, and `pr_part` is `_pr<N>` when the PR number is
truthy. -/
def cacheScopeDir (repository : String) (branch : Option String)
    (pullRequestNumber : Option Nat) : String :=
  let safeRepo := String.mk (replaceChar repository.toList '/' '_')
  let safeBranch := String.mk (replaceChar (branchOrDefault branch).toList '/' '_')
  safeRepo ++ "_" ++ safeBranch ++ prSuffix pullRequestNumber

/-- `get_cache_path` (utils/helpers.py): `.cache/<scopeDir>/<hash>.json`
(the `os.makedirs` side effect is irrelevant to the returned path). -/
def get_cache_path (repository : String) (branch : Option String)
    (pullRequestNumber : Option Nat) (filenameHash : String) : String :=
  ".cache/" ++ cacheScopeDir repository branch pullRequestNumber ++ "/" ++
    filenameHash ++ ".json"

/-! ## Data model of the analysis pipeline -/

/-- A file dict as produced by the fetchers: `{'filename': ..., 'content': ...}`
with `content` possibly `None` (modelled as `none`). -/
structure PyFile where
  filename : String
  content : Option String
deriving DecidableEq, Repr

/-- A comment dict `{'user': ..., 'body': ...}` as used in prompt building. -/
structure CommentD where
  user : String
  body : String
deriving DecidableEq, Repr

/-- A commit dict `{'author': ..., 'message': ...}` as used in prompt building. -/
structure CommitD where
  author : String
  message : String
deriving DecidableEq, Repr

/-- The seven sections extracted by `parse_llm_response` (github_audit.py
lines 331-359).  The regex extraction itself is modelled as an oracle. -/
structure Sections where
  summary : String
  bugs_issues : String
  suggestions : String
  code_example : String
  code_smells : String
  security_performance : String
  test_coverage : String
deriving DecidableEq, Repr

/-- An analysis result dict.  A full result is `{'filename': f, **sections}`;
the too-large placeholder is `{'filename': f, 'summary': ...}` only, so the
section fields other than `summary` are optional (absent keys are `none`). -/
structure AEntry where
  filename : String
  summary : String
  bugs_issues : Option String := none
  suggestions : Option String := none
  code_example : Option String := none
  code_smells : Option String := none
  security_performance : Option String := none
  test_coverage : Option String := none
deriving DecidableEq, Repr

/-- Build the full result dict `{'filename': f, **sections}`. -/
def mkEntry (filename : String) (s : Sections) : AEntry :=
  ⟨filename, s.summary, some s.bugs_issues, some s.suggestions,
    some s.code_example, some s.code_smells, some s.security_performance,
    some s.test_coverage⟩

/-- The too-large placeholder dict appended by both analyzers:
`{'filename': f, 'summary': 'File too large for detailed LLM analysis. Skipping.'}`. -/
def tooLargeEntry (filename : String) : AEntry :=
  { filename := filename
    summary := "File too large for detailed LLM analysis. Skipping." }

/-- What `async_analyze_code_files` appends to the partial-report stream for
one finished file: the filename, the summary, and the suggestions /
code-example blocks when those fields are truthy. -/
structure StreamEntry where
  filename : String
  summary : String
  suggestions : Option String
  code_example : Option String
deriving DecidableEq, Repr

/-- Python `result.get(key)` truthiness for an optional string field. -/
def optTruthy : Option String → Option String
  | some s => if s.toList.isEmpty then none else some s
  | none => none

/-- The stream record written for a completed result. -/
def streamOf (e : AEntry) : StreamEntry :=
  ⟨e.filename, e.summary, optTruthy e.suggestions, optTruthy e.code_example⟩

/-! ## Prompt building (github_audit.py lines 427-465 and 368-405) -/

/-- `comments_text`: `'\n'.join(f"- {c['user']}: {c['body']}")`. -/
def commentsText (cs : List CommentD) : String :=
  joinNl (cs.map (fun c => "- " ++ c.user ++ ": " ++ c.body))

/-- `commits_text`: `'\n'.join(f"- {c['author']}: {c['message']}")`. -/
def commitsText (cs : List CommitD) : String :=
  joinNl (cs.map (fun c => "- " ++ c.author ++ ": " ++ c.message))

/-- `readme_context = readme[:2000] if readme else ""`. -/
def readmeContext (readme : String) : String :=
  if readme.toList.isEmpty then "" else pyTake readme 2000

/-- The per-file review prompt of `analyze_code_files` /
`async_analyze_code_files`, assembled from the file, the README excerpt and
the capped comment/commit texts. -/
def buildPrompt (readme : String) (comments : List CommentD)
    (commits : List CommitD) (f : PyFile) : String :=
  "\nYou are an expert code reviewer. Analyze the following file for bugs, " ++
  "code quality, maintainability, and best practices. Use the README, recent " ++
  "commit messages, and code review comments as context. For small files, " ++
  "include a code example for any suggested improvement.\n\n" ++
  "File: " ++ f.filename ++ "\n\n" ++
  "README (excerpt):\n" ++ readmeContext readme ++ "\n\n" ++
  "Recent commit messages:\n" ++ pyTake (commitsText commits) 1000 ++ "\n\n" ++
  "Recent code review comments:\n" ++ pyTake (commentsText comments) 1000 ++ "\n\n" ++
  "--- BEGIN FILE CONTENT ---\n" ++ pyTake (f.content.getD "") 8000 ++ "\n" ++
  "--- END FILE CONTENT ---\n\n" ++
  "Please provide:\n" ++
  "- A concise summary of what this file does\n" ++
  "- Any bugs or issues found\n" ++
  "- Suggestions for improvement (with code examples if file is small)\n" ++
  "- Notable code smells or anti-patterns\n" ++
  "- Security or performance concerns\n" ++
  "- If the file is a test, comment on test coverage and quality\n"

/-- Context shared by the analyzers: the prompt ingredients plus oracles for
the inference server (`genF`, indexed by the global call number) and the
regex section parser (`parseF`). -/
structure ACtx where
  comments : List CommentD
  commits : List CommitD
  readme : String
  genF : Nat → String → String
  parseF : String → Sections

/-! ## Synchronous `analyze_code_files` (github_audit.py lines 362-415)

For each file: skip when the content is falsy or whitespace-only; for
oversized content append the placeholder without a model call; otherwise call
`llama.generate(prompt)` (the Ollama client returns an error string instead
of raising, and the surrounding try/except also degrades a raise to an error
string) and append the parsed sections.  Returns the list plus the number of
inference calls made and the next oracle index. -/

/-- The two skip tests shared by both analyzers, in source order. -/
def isEmptySkip (content : String) : Bool :=
  content.toList.isEmpty || (pyStrip content).toList.isEmpty

/-- The size threshold test: over 100,000 characters or over 4,000 newlines. -/
def isTooLarge (content : String) : Bool :=
  decide (content.length > 100000) || decide (countChar content '\n' > 4000)

/-- `analyze_code_files(files, comments, commits, readme, llama)`. -/
def analyze_code_files (ctx : ACtx) : List PyFile → Nat →
    List AEntry × Nat × Nat
  | [], k => ([], 0, k)
  | f :: fs, k =>
    let content := f.content.getD ""
    if isEmptySkip content then
      analyze_code_files ctx fs k
    else if isTooLarge content then
      let (rs, calls, k') := analyze_code_files ctx fs k
      (tooLargeEntry f.filename :: rs, calls, k')
    else
      let resp := ctx.genF k (buildPrompt ctx.readme ctx.comments ctx.commits f)
      let e := mkEntry f.filename (ctx.parseF resp)
      let (rs, calls, k') := analyze_code_files ctx fs (k + 1)
      (e :: rs, calls + 1, k')

/-! ## The filesystem cache and `analyze_files_parallel`
(utils/helpers.py lines 179-241)

The cache is one JSON file per path; writes overwrite, reads return the most
recent write.  `hash_content` (SHA-256) is an oracle parameter `hashF`.
The function first partitions every file with truthy content into
cached/uncached by testing `os.path.exists(cache_path)` against the cache as
it is at the start of the run, then analyzes each uncached file (one
`analyze_code_files([f], ...)` call each) and writes the result back under
that file's content-hash path. -/

/-- The filesystem-backed cache: an association list from path to entry,
most recent write first. -/
structure CacheFS where
  entries : List (String × AEntry)
deriving Repr

/-- `os.path.exists` + `json.load`: the most recent entry at a path. -/
def CacheFS.read (c : CacheFS) (p : String) : Option AEntry :=
  c.entries.lookup p

/-- `json.dump` to a path: prepend, so later writes win. -/
def CacheFS.write (c : CacheFS) (p : String) (e : AEntry) : CacheFS :=
  ⟨(p, e) :: c.entries⟩

/-- The cache path of a file's content under a `(repo, branch, pr)` scope. -/
def filePath (hashF : String → String) (repo : String) (branch : Option String)
    (pr : Option Nat) (f : PyFile) : String :=
  get_cache_path repo branch pr (hashF (f.content.getD ""))

/-- The partition loop of `analyze_files_parallel`: files with falsy content
are dropped; files whose cache path exists are served from cache; the rest
are collected as `uncached`, in input order. -/
def afpPartition (hashF : String → String) (repo : String)
    (branch : Option String) (pr : Option Nat) (cache : CacheFS) :
    List PyFile → List AEntry × List PyFile
  | [] => ([], [])
  | f :: fs =>
    let content := f.content.getD ""
    if content.toList.isEmpty then
      afpPartition hashF repo branch pr cache fs
    else
      match cache.read (filePath hashF repo branch pr f) with
      | some e =>
        let (rs, us) := afpPartition hashF repo branch pr cache fs
        (e :: rs, us)
      | none =>
        let (rs, us) := afpPartition hashF repo branch pr cache fs
        (rs, f :: us)

/-- Result of one `analyze_files_parallel` run (and of its analysis loop). -/
structure AfpOut where
  results : List AEntry
  cache : CacheFS
  calls : Nat
  counter : Nat

/-- The analysis loop of `analyze_files_parallel`: each uncached file is run
through `analyze_code_files([f], ...)`; a non-empty result extends the
result list and is written to the cache under the file's content-hash path.
The thread-pool completions are linearized in submission order (only
membership and counts are claimed, never sequence). -/
def afpAnalyze (ctx : ACtx) (hashF : String → String) (repo : String)
    (branch : Option String) (pr : Option Nat) :
    List PyFile → CacheFS → Nat → AfpOut
  | [], c, k => ⟨[], c, 0, k⟩
  | f :: fs, c, k =>
    let r0 := analyze_code_files ctx [f] k
    match r0.1 with
    | [] =>
      let rest := afpAnalyze ctx hashF repo branch pr fs c r0.2.2
      ⟨rest.results, rest.cache, r0.2.1 + rest.calls, rest.counter⟩
    | e :: _ =>
      let rest := afpAnalyze ctx hashF repo branch pr fs
        (c.write (filePath hashF repo branch pr f) e) r0.2.2
      ⟨r0.1 ++ rest.results, rest.cache, r0.2.1 + rest.calls, rest.counter⟩

/-- `analyze_files_parallel(files, comments, commits, readme, llm_client,
repo_name, branch_name, pr_number, max_workers)`. -/
def analyze_files_parallel (ctx : ACtx) (hashF : String → String)
    (repo : String) (branch : Option String) (pr : Option Nat)
    (cache0 : CacheFS) (files : List PyFile) (k0 : Nat) : AfpOut :=
  let (cached, uncached) := afpPartition hashF repo branch pr cache0 files
  let r := afpAnalyze ctx hashF repo branch pr uncached cache0 k0
  ⟨cached ++ r.results, r.cache, r.calls, r.counter⟩

/-! ## `async_analyze_code_files` (github_audit.py lines 418-505)

The first loop over `files` skips falsy/whitespace content, appends the
too-large placeholder to `analyses` for oversized content, and otherwise
queues `(prompt, file)`.  Queued prompts are processed in batches of 8
concurrent `batch_async_generate` calls; since each batch is awaited as an
ordered `gather` and its results are handled by a sequential inner loop, the
per-prompt effects happen exactly in prompt-index order, which is how the
queue is processed here.  A response that is empty or contains `'LLM error'`
marks the file failed (`results[idx] = None`, nothing cached or streamed);
otherwise the parsed result is appended to `analyses`, stored in
`results[idx]` and streamed when a partial-report path was supplied.
Afterwards, if there are failed files and a retry callback approves, the
function re-invokes itself once on the failed subset with no further retry
callback; the value returned by that inner call (its own
`[r for r in results if r]`) extends `analyses`, and its stream writes append
to the same report file.  The function's own return value is
`[r for r in results if r]` over the **first-pass** `results` array. -/

/-- The queue-building loop: placeholders for oversized files, queued file
objects for the rest (skips drop the file entirely). -/
def buildQueue : List PyFile → List AEntry × List PyFile
  | [] => ([], [])
  | f :: fs =>
    let content := f.content.getD ""
    if isEmptySkip content then buildQueue fs
    else if isTooLarge content then
      let (as, qs) := buildQueue fs
      (tooLargeEntry f.filename :: as, qs)
    else
      let (as, qs) := buildQueue fs
      (as, f :: qs)

/-- Per-pass output of the batch loop: the `results` array, the stream
writes, the failed-file list and the next oracle index. -/
structure QOut where
  results : List (Option AEntry)
  streamed : List StreamEntry
  failed : List PyFile
  counter : Nat
deriving Repr

/-- The batch loop over queued files, in prompt-index order. -/
def processQueued (ctx : ACtx) (streamOn : Bool) : List PyFile → Nat → QOut
  | [], k => ⟨[], [], [], k⟩
  | f :: fs, k =>
    let resp := ctx.genF k (buildPrompt ctx.readme ctx.comments ctx.commits f)
    let rest := processQueued ctx streamOn fs (k + 1)
    if resp.toList.isEmpty || strHasSub resp "LLM error" then
      ⟨none :: rest.results, rest.streamed, f :: rest.failed, rest.counter⟩
    else
      let e := mkEntry f.filename (ctx.parseF resp)
      ⟨some e :: rest.results,
        (if streamOn then [streamOf e] else []) ++ rest.streamed,
        rest.failed, rest.counter⟩

/-- Everything one pass of the orchestrator produces. -/
structure PassOut where
  analyses : List AEntry
  results : List (Option AEntry)
  streamed : List StreamEntry
  failed : List PyFile
  calls : Nat
  counter : Nat
deriving Repr

/-- One full pass (skip loop + batch loop) of `async_analyze_code_files`. -/
def runPass (ctx : ACtx) (streamOn : Bool) (files : List PyFile) (k0 : Nat) :
    PassOut :=
  let (as, qs) := buildQueue files
  let r := processQueued ctx streamOn qs k0
  ⟨as ++ r.results.filterMap id, r.results, r.streamed, r.failed, qs.length,
    r.counter⟩

/-- The observable outcome of `async_analyze_code_files`: the internal
`analyses` list, the returned list, the partial-report stream writes, the
first-pass failed files, the number of inference calls and the final oracle
index. -/
structure AOut where
  analyses : List AEntry
  returned : List AEntry
  streamed : List StreamEntry
  failed : List PyFile
  calls : Nat
  counter : Nat
deriving Repr

/-- `async_analyze_code_files(files, comments, commits, readme, llama,
partial_report_path, retry_callback)`.  The single recursive self-call on the
failed subset carries `retry_callback=None`, so its behaviour is exactly one
pass: its return value is that pass's `[r for r in results if r]` and its
stream writes append to the same file; that is inlined here. -/
def async_analyze_code_files (ctx : ACtx) (streamOn : Bool)
    (files : List PyFile) (retryCallback : Option (List PyFile → Bool))
    (k0 : Nat) : AOut :=
  let p := runPass ctx streamOn files k0
  match retryCallback with
  | some cb =>
    if !p.failed.isEmpty && cb p.failed then
      let q := runPass ctx streamOn p.failed p.counter
      ⟨p.analyses ++ q.results.filterMap id, p.results.filterMap id,
        p.streamed ++ q.streamed, p.failed, p.calls + q.calls, q.counter⟩
    else
      ⟨p.analyses, p.results.filterMap id, p.streamed, p.failed, p.calls,
        p.counter⟩
  | none =>
    ⟨p.analyses, p.results.filterMap id, p.streamed, p.failed, p.calls,
      p.counter⟩

/-! ## The CLI call into the orchestrator (cli.py lines 684-688)

The "All code files" path wraps the call as
`async_analyze_code_files(files, comments, commits, readme, llm_client,
partial_report_path=..., retry_callback=..., rebuild_cache=rebuild_cache)`:
five positional arguments and three keyword arguments.  Python binds call
arguments against the callee's parameter list before the body runs; a
keyword that names no parameter (and no `**kwargs` to absorb it) raises
`TypeError` at the call site. -/

/-- The parameter names of `async_analyze_code_files` (github_audit.py
line 418). -/
def asyncAnalyzeCodeFilesParams : List String :=
  ["files", "comments", "commits", "readme", "llama", "partial_report_path",
   "retry_callback"]

/-- The parameters of `async_analyze_code_files` that carry defaults. -/
def asyncAnalyzeCodeFilesDefaults : List String :=
  ["partial_report_path", "retry_callback"]

/-- `async_analyze_code_files` declares no `**kwargs`. -/
def asyncAnalyzeCodeFilesHasVarKw : Bool := false

/-- The keyword-argument names the CLI's "All code files" path passes
(cli.py lines 686-687), after its five positional arguments. -/
def cliAllCodeFilesKwargs : List String :=
  ["partial_report_path", "retry_callback", "rebuild_cache"]

/-- The number of positional arguments in that call. -/
def cliAllCodeFilesPosCount : Nat := 5

/-- Python's argument-binding check for a call with `posCount` positional
arguments followed by the named keyword arguments: every keyword must name a
parameter that is not already bound positionally (or be absorbed by
`**kwargs`), and every parameter left unbound must have a default. -/
def pyBindOk (params defaults : List String) (hasVarKw : Bool)
    (posCount : Nat) (kwargs : List String) : Bool :=
  decide (posCount ≤ params.length) &&
  kwargs.all (fun k =>
    if (params.take posCount).contains k then false
    else (params.drop posCount).contains k || hasVarKw) &&
  (params.drop posCount).all (fun p =>
    defaults.contains p || kwargs.contains p)

/-- The CLI's `analyze_files()` call: run the orchestrator only if the
argument binding succeeds, otherwise the call raises `TypeError` before any
analysis begins (`none`). -/
def cliAnalyzeFilesCall (ctx : ACtx) (streamOn : Bool) (files : List PyFile)
    (retryCallback : Option (List PyFile → Bool)) (k0 : Nat) : Option AOut :=
  if pyBindOk asyncAnalyzeCodeFilesParams asyncAnalyzeCodeFilesDefaults
      asyncAnalyzeCodeFilesHasVarKw cliAllCodeFilesPosCount
      cliAllCodeFilesKwargs then
    some (async_analyze_code_files ctx streamOn files retryCallback k0)
  else none

/-! ## The pull-request snapshot fetcher
(github_client/github_client.py lines 178-275, PR branch)

The remote API is an oracle `g` from `(endpoint, params)` to a JSON value or
an exception; `base64.b64decode(...).decode('utf-8')` is an oracle `decode`
returning `none` when it raises.  Field access `d['k']` raises `KeyError` on
a missing key, which propagates out of the fetch; per-file content fetches go
through `asyncio.gather(..., return_exceptions=True)` followed by an
`isinstance(content, dict) and 'content' in content` guard, so their failures
degrade `content` to `None`; the README fetch is wrapped in its own
try/except that degrades any failure to the empty string. -/

/-- A remote GET oracle: endpoint and query parameters to JSON or an error. -/
def GFetch : Type := String → List (String × String) → Except String JVal

/-- Propagate a missing/ill-typed field as a raised `KeyError`. -/
def req {α : Type} : Option α → Except String α
  | some a => .ok a
  | none => .error "KeyError"

/-- A comment record (`GitHubComment`). -/
structure CommentR where
  user : String
  body : String
  created_at : String
  path : Option String := none
  position : Option Int := none
deriving DecidableEq, Repr

/-- A commit record (`GitHubCommit`). -/
structure CommitR where
  sha : String
  message : String
  author : String
  date : String
deriving DecidableEq, Repr

/-- The pull-request metadata record (`GitHubPullRequestInfo`). -/
structure PRInfoR where
  title : String
  body : String
  user : String
  created_at : String
  state : String
  merged : Bool
  base_branch : String
  head_branch : String
  url : String
deriving DecidableEq, Repr

/-- A file record (`GitHubFile`). -/
structure GitHubFileR where
  filename : String
  status : Option String := none
  patch : Option String := none
  content : Option String := none
deriving DecidableEq, Repr

/-- The snapshot returned by `async_fetch_repo_data`. -/
structure SnapshotR where
  files : List GitHubFileR
  comments : List CommentR
  commits : List CommitR
  readme : String
  prInfo : PRInfoR
deriving DecidableEq, Repr

/-- Endpoint `/repos/{owner}/{repo}/pulls/{n}`. -/
def prEp (o r : String) (n : Nat) : String :=
  "/repos/" ++ o ++ "/" ++ r ++ "/pulls/" ++ toString n

/-- Endpoint `/repos/{owner}/{repo}/pulls/{n}/files`. -/
def prFilesEp (o r : String) (n : Nat) : String := prEp o r n ++ "/files"

/-- Endpoint `/repos/{owner}/{repo}/issues/{n}/comments`. -/
def issueCommentsEp (o r : String) (n : Nat) : String :=
  "/repos/" ++ o ++ "/" ++ r ++ "/issues/" ++ toString n ++ "/comments"

/-- Endpoint `/repos/{owner}/{repo}/pulls/{n}/comments`. -/
def reviewCommentsEp (o r : String) (n : Nat) : String :=
  prEp o r n ++ "/comments"

/-- Endpoint `/repos/{owner}/{repo}/pulls/{n}/commits`. -/
def prCommitsEp (o r : String) (n : Nat) : String := prEp o r n ++ "/commits"

/-- Endpoint `/repos/{owner}/{repo}/readme`. -/
def readmeEp (o r : String) : String := "/repos/" ++ o ++ "/" ++ r ++ "/readme"

/-- Endpoint `/repos/{owner}/{repo}/contents/{path}`. -/
def contentsEp (o r path : String) : String :=
  "/repos/" ++ o ++ "/" ++ r ++ "/contents/" ++ path

/-- One changed file of the PR: metadata from the `/files` listing, content
fetched at the **head** ref and degraded to `none` on any failure. -/
def fetchPRFile (g : GFetch) (decode : String → Option String)
    (owner repo headRef : String) (fj : JVal) : Except String GitHubFileR := do
  let fname ← req ((fj.look "filename").bind JVal.asStr)
  let fstatus ← req ((fj.look "status").bind JVal.asStr)
  let fpatch := match fj.look "patch" with
    | some (.s p) => some p
    | _ => none
  let fcontent := match g (contentsEp owner repo fname) [("ref", headRef)] with
    | .ok (.obj kvs) =>
      match (JVal.obj kvs).look "content" with
      | some (.s c) => decode c
      | _ => none
    | _ => none
  pure ⟨fname, some fstatus, fpatch, fcontent⟩

/-- One issue-level PR comment. -/
def fetchIssueComment (c : JVal) : Except String CommentR := do
  let u ← req (((c.look "user").bind (fun x => x.look "login")).bind JVal.asStr)
  let b ← req ((c.look "body").bind JVal.asStr)
  let t ← req ((c.look "created_at").bind JVal.asStr)
  pure ⟨u, b, t, none, none⟩

/-- One inline review comment. -/
def fetchReviewComment (c : JVal) : Except String CommentR := do
  let u ← req (((c.look "user").bind (fun x => x.look "login")).bind JVal.asStr)
  let b ← req ((c.look "body").bind JVal.asStr)
  let p ← req ((c.look "path").bind JVal.asStr)
  let pos := match c.look "position" with
    | some (.n v) => some v
    | _ => none
  let t ← req ((c.look "created_at").bind JVal.asStr)
  pure ⟨u, b, t, some p, pos⟩

/-- One PR commit. -/
def fetchCommit (c : JVal) : Except String CommitR := do
  let sha ← req ((c.look "sha").bind JVal.asStr)
  let cj ← req (c.look "commit")
  let msg ← req ((cj.look "message").bind JVal.asStr)
  let author ←
    req (((cj.look "author").bind (fun a => a.look "name")).bind JVal.asStr)
  let date ←
    req (((cj.look "author").bind (fun a => a.look "date")).bind JVal.asStr)
  pure ⟨sha, msg, author, date⟩

/-- The PR branch of `async_fetch_repo_data`
(github_client/github_client.py lines 204-275 and 336-344): PR metadata,
changed files (contents at the head ref), issue comments, review comments,
commits, and the README fetched at the **base** ref with failures degraded
to the empty string. -/
def async_fetch_repo_data_pr (g : GFetch) (decode : String → Option String)
    (owner repo : String) (prNumber : Nat) : Except String SnapshotR := do
  let pr ← g (prEp owner repo prNumber) []
  let title ← req ((pr.look "title").bind JVal.asStr)
  let body ← req ((pr.look "body").bind JVal.asStr)
  let user ←
    req (((pr.look "user").bind (fun u => u.look "login")).bind JVal.asStr)
  let created ← req ((pr.look "created_at").bind JVal.asStr)
  let state ← req ((pr.look "state").bind JVal.asStr)
  let merged := match pr.look "merged" with
    | some (.b v) => v
    | _ => false
  let baseRef ←
    req (((pr.look "base").bind (fun b => b.look "ref")).bind JVal.asStr)
  let headRef ←
    req (((pr.look "head").bind (fun h => h.look "ref")).bind JVal.asStr)
  let url ← req ((pr.look "html_url").bind JVal.asStr)
  let prFilesJ ← g (prFilesEp owner repo prNumber) []
  let prFiles ← req prFilesJ.asArr
  let files ← prFiles.mapM (fetchPRFile g decode owner repo headRef)
  let icJ ← g (issueCommentsEp owner repo prNumber) []
  let ics ← req icJ.asArr
  let comments1 ← ics.mapM fetchIssueComment
  let rcJ ← g (reviewCommentsEp owner repo prNumber) []
  let rcs ← req rcJ.asArr
  let comments2 ← rcs.mapM fetchReviewComment
  let pcJ ← g (prCommitsEp owner repo prNumber) []
  let pcs ← req pcJ.asArr
  let commits ← pcs.mapM fetchCommit
  let readme := match g (readmeEp owner repo) [("ref", baseRef)] with
    | .ok o =>
      match o.look "content" with
      | some (.s c) => (decode c).getD ""
      | _ => ""
    | .error _ => ""
  pure ⟨files, comments1 ++ comments2, commits, readme,
    ⟨title, body, user, created, state, merged, baseRef, headRef, url⟩⟩

/-- A PR metadata JSON object with every field the fetcher reads. -/
def mkPrJson (title body user created state : String) (merged : Bool)
    (baseRef headRef url : String) : JVal :=
  .obj [("title", .s title), ("body", .s body),
        ("user", .obj [("login", .s user)]),
        ("created_at", .s created), ("state", .s state), ("merged", .b merged),
        ("base", .obj [("ref", .s baseRef)]),
        ("head", .obj [("ref", .s headRef)]),
        ("html_url", .s url)]

/-! ## Concrete inputs used by counterexamples and witnesses -/

/-- A response oracle whose first three responses are rate-limited and whose
fourth would succeed. -/
def c1Resp : Nat → GHResp := fun k => if k < 3 then .rateLimited 5 else .ok .null

/-- A response oracle with one rate-limited response followed by successes. -/
def c1aResp : Nat → GHResp := fun k => if k = 0 then .rateLimited 5 else .ok .null

/-- A response oracle that always fails at the transport level. -/
def c6Resp : Nat → GHResp := fun _ => .transportError

/-- One rate-limited response with a far-away reset epoch, then successes. -/
def c8Resp : Nat → GHResp := fun k =>
  if k = 0 then .rateLimited 1000 else .ok .null

/-- Rate-limited on every call, far-away reset epoch. -/
def c8AllResp : Nat → GHResp := fun _ => .rateLimited 1000

/-- A section-parser oracle mirroring the parser's guaranteed fallback. -/
def fallbackParse : String → Sections :=
  fun r => ⟨pyTake (pyStrip r) 300, "", "", "", "", "", ""⟩

/-- The spec scenario's three files: two share identical content. -/
def fileA : PyFile := ⟨"a.py", some "def f(): pass"⟩

/-- Second file of the scenario, same content as the first. -/
def fileB : PyFile := ⟨"b.py", some "def f(): pass"⟩

/-- Third file of the scenario, distinct content. -/
def fileC : PyFile := ⟨"c.py", some "def g(): pass"⟩

/-- The scenario file list. -/
def scenarioFiles : List PyFile := [fileA, fileB, fileC]

/-- An analysis context whose inference oracle always succeeds. -/
def okCtx : ACtx := ⟨[], [], "", fun _ _ => "Looks fine.", fallbackParse⟩

/-- An analysis context whose inference oracle always returns the literal
inference-error marker. -/
def failCtx : ACtx := ⟨[], [], "", fun _ _ => "[LLM error: boom]", fallbackParse⟩

/-- An analysis context where the first file's call succeeds, the second
file's call fails, and the retry call for it succeeds. -/
def retryCtx : ACtx :=
  ⟨[], [], "",
    fun k _ =>
      if k = 0 then "First file looks fine."
      else if k = 1 then "[LLM error: boom]"
      else "Second file looks fine on retry.",
    fallbackParse⟩

/-- The two files of the retry scenario. -/
def c9Files : List PyFile := [fileA, fileB]

/-- First pass of the retry scenario. -/
def c9P : PassOut := runPass retryCtx true c9Files 0

/-- Retry pass of the retry scenario. -/
def c9Q : PassOut := runPass retryCtx true c9P.failed c9P.counter

/-- Content above the 100,000-character threshold. -/
def bigContent : String := String.mk (List.replicate 100001 'a')

/-- A file whose content exceeds the size threshold. -/
def bigFile : PyFile := ⟨"big.py", some bigContent⟩

/-- The base-ref README payload of the C5 witness remote. -/
def c5Decode : String → Option String := fun s =>
  if s = "ENC-OLD" then some "# Old"
  else if s = "ENC-NEW" then some "# New"
  else none

/-- A concrete remote for the C5 witness: the base-ref README decodes to
`"# Old"`, the head-ref README decodes to `"# New"`. -/
def c5G : GFetch := fun ep ps =>
  if ep = prEp "o" "r" 1 ∧ ps = [] then
    .ok (mkPrJson "Title" "Body" "alice" "2024-01-01" "open" false
      "main" "feature" "https://x")
  else if ep = prFilesEp "o" "r" 1 ∧ ps = [] then .ok (.arr [])
  else if ep = issueCommentsEp "o" "r" 1 ∧ ps = [] then .ok (.arr [])
  else if ep = reviewCommentsEp "o" "r" 1 ∧ ps = [] then .ok (.arr [])
  else if ep = prCommitsEp "o" "r" 1 ∧ ps = [] then .ok (.arr [])
  else if ep = readmeEp "o" "r" ∧ ps = [("ref", "main")] then
    .ok (.obj [("content", .s "ENC-OLD")])
  else if ep = readmeEp "o" "r" ∧ ps = [("ref", "feature")] then
    .ok (.obj [("content", .s "ENC-NEW")])
  else .error "HTTP 404"

/-! # Theorems -/

/-! ## Helper lemmas -/

/-- An error response is one of the two exception-producing constructors. -/
theorem GHResp.isErr_cases {r : GHResp} (h : r.isErr = true) :
    r = .httpError ∨ r = .transportError := by
  cases r with
  | ok j => simp [GHResp.isErr] at h
  | rateLimited reset => simp [GHResp.isErr] at h
  | httpError => exact Or.inl rfl
  | transportError => exact Or.inr rfl

/-- The retry loop makes at most `remaining` further calls. -/
theorem ghGetLoop_calls_le (respF : Nat → GHResp) (endpoint : String)
    (retries : Nat) :
    ∀ (remaining attempt calls clock : Nat) (sleeps : List Nat),
      (ghGetLoop respF endpoint retries remaining attempt calls clock
        sleeps).calls ≤ calls + remaining := by
  intro remaining
  induction remaining with
  | zero => intro attempt calls clock sleeps; simp [ghGetLoop]
  | succ n ih =>
    intro attempt calls clock sleeps
    rw [ghGetLoop]
    cases h : respF calls with
    | ok j => simp
    | rateLimited reset => exact le_trans (ih ..) (by omega)
    | httpError => exact le_trans (ih ..) (by omega)
    | transportError => exact le_trans (ih ..) (by omega)

/-- `toList` distributes over string append. -/
theorem toList_append (a b : String) : (a ++ b).toList = a.toList ++ b.toList := by
  cases a; cases b; rfl

/-- `Nat.digitChar` never produces a slash on the digit range used by the
decimal printer. -/
theorem digitChar_ne_slash (m : Nat) (hm : m < 16) : Nat.digitChar m ≠ '/' := by
  interval_cases m <;> decide

/-- The base-10 digit accumulator never introduces a slash. -/
theorem toDigitsCore_ne_slash :
    ∀ (fuel n : Nat) (ds : List Char), (∀ c ∈ ds, c ≠ '/') →
      ∀ c ∈ Nat.toDigitsCore 10 fuel n ds, c ≠ '/' := by
  intro fuel
  induction fuel with
  | zero => intro n ds hds c hc; exact hds c hc
  | succ fuel ih =>
    intro n ds hds c hc
    simp only [Nat.toDigitsCore] at hc
    have hdig : Nat.digitChar (n % 10) ≠ '/' :=
      digitChar_ne_slash _ (lt_trans (Nat.mod_lt _ (by norm_num)) (by norm_num))
    split at hc
    · rcases List.mem_cons.1 hc with h | h
      · exact h ▸ hdig
      · exact hds c h
    · refine ih (n / 10) _ ?_ c hc
      intro c hc
      rcases List.mem_cons.1 hc with h | h
      · exact h ▸ hdig
      · exact hds c h

/-- The decimal representation of a natural number contains no slash. -/
theorem natRepr_no_slash (n : Nat) : '/' ∉ (Nat.repr n).toList := fun hmem =>
  toDigitsCore_ne_slash (n + 1) n []
    (fun c hc => absurd hc (List.not_mem_nil c)) '/' hmem rfl

/-- Replacing every slash leaves no slash behind. -/
theorem replaceChar_no_slash (l : List Char) : '/' ∉ replaceChar l '/' '_' := by
  intro h
  rcases List.mem_map.1 h with ⟨c, -, hc⟩
  by_cases hcs : c = '/'
  · rw [if_pos hcs] at hc
    exact absurd hc (by decide)
  · rw [if_neg hcs] at hc
    exact hcs hc

/-- The `_pr<N>` suffix contains no slash. -/
theorem prSuffix_no_slash (pr : Option Nat) : '/' ∉ (prSuffix pr).toList := by
  intro h
  rcases pr with _ | n
  · simp [prSuffix] at h
  · rw [prSuffix] at h
    by_cases hn : n = 0
    · rw [if_pos hn] at h
      simp at h
    · rw [if_neg hn, toList_append] at h
      rcases List.mem_append.1 h with h | h
      · exact absurd h (by decide)
      · exact natRepr_no_slash n h

/-! ## C1: rate-limit handling in the client retry loop -/

/-- C1 counterexample: a sequence of three rate-limited responses followed by
a call that would succeed.  The client sleeps until the reset epoch and
retries, but each rate-limited retry consumes one attempt of the bounded
3-attempt budget (the loop's `continue` advances the `for` loop), so the
terminal RuntimeError is raised after 3 calls and the fourth, successful,
call is never made — refuting the claim that rate-limited retries are not
counted against the retry budget. -/
theorem C1_rate_limit_counted_cex :
    (ghGet c1Resp "/rate" 3 0).result =
        .error "GitHub API GET /rate failed after 3 attempts." ∧
    (ghGet c1Resp "/rate" 3 0).calls = 3 ∧
    (ghGet c1Resp "/rate" 3 0).sleeps = [5, 1, 1] ∧
    c1Resp 3 = .ok .null :=
  ⟨rfl, rfl, rfl, rfl⟩

/-- C1 amended: on an HTTP 403 response with zero remaining quota the client
sleeps `max(reset − now, 1)` seconds (at least 1) and then retries the same
call, but the rate-limited retry consumes one attempt from the same bounded
retry budget (default 3) that transport/remote errors consume. -/
theorem C1_rate_limit_sleep_retry (respF : Nat → GHResp) (endpoint : String)
    (reset clock : Nat) (j : JVal)
    (h0 : respF 0 = .rateLimited reset) (h1 : respF 1 = .ok j) :
    ghGet respF endpoint 3 clock =
      ⟨.ok j, 2, [max (reset - clock) 1], clock + max (reset - clock) 1⟩ ∧
    1 ≤ max (reset - clock) 1 := by
  refine ⟨?_, le_max_right _ _⟩
  simp [ghGet, ghGetLoop, h0, h1]

/-- C1 amended, witness: one rate-limited response with reset epoch 5 and
clock 0 makes the client sleep 5 seconds and then succeed on the retried
call, having used 2 of the 3 attempts. -/
theorem C1_rate_limit_sleep_retry_witness :
    ghGet c1aResp "/rate" 3 0 = ⟨.ok .null, 2, [5], 5⟩ ∧ 1 ≤ max (5 - 0) 1 :=
  C1_rate_limit_sleep_retry c1aResp "/rate" 5 0 .null rfl rfl

/-! ## C6: the bounded retry budget -/

/-- C6: a GET that keeps failing with transport or remote errors makes
exactly the budgeted 3 attempts, sleeping 2^attempt seconds after each
failed attempt, then surfaces the terminal RuntimeError; and in general the
number of HTTP calls never exceeds the retry budget, so the client never
retries indefinitely. -/
theorem C6_retry_budget_bounded :
    (∀ (respF : Nat → GHResp) (endpoint : String) (clock : Nat),
      (∀ k, (respF k).isErr = true) →
      (ghGet respF endpoint 3 clock).result =
          .error ("GitHub API GET " ++ endpoint ++ " failed after " ++
            toString 3 ++ " attempts.") ∧
      (ghGet respF endpoint 3 clock).calls = 3 ∧
      (ghGet respF endpoint 3 clock).sleeps = [1, 2, 4]) ∧
    (∀ (respF : Nat → GHResp) (endpoint : String) (retries clock : Nat),
      (ghGet respF endpoint retries clock).calls ≤ retries) := by
  constructor
  · intro respF endpoint clock h
    rcases GHResp.isErr_cases (h 0) with e0 | e0 <;>
      rcases GHResp.isErr_cases (h 1) with e1 | e1 <;>
        rcases GHResp.isErr_cases (h 2) with e2 | e2 <;>
          refine ⟨?_, ?_, ?_⟩ <;>
            simp [ghGet, ghGetLoop, e0, e1, e2]
  · intro respF endpoint retries clock
    have := ghGetLoop_calls_le respF endpoint retries retries 0 0 clock []
    simpa [ghGet] using this

/-- C6 witness: the all-transport-error oracle exhausts the budget in exactly
3 calls with sleeps 1, 2, 4 and a terminal error. -/
theorem C6_retry_budget_bounded_witness :
    (ghGet c6Resp "/x" 3 0).calls = 3 ∧
    (ghGet c6Resp "/x" 3 0).sleeps = [1, 2, 4] ∧
    (ghGet c6Resp "/x" 3 0).calls ≤ 3 :=
  ⟨(C6_retry_budget_bounded.1 c6Resp "/x" 0 (fun _ => rfl)).2.1,
   (C6_retry_budget_bounded.1 c6Resp "/x" 0 (fun _ => rfl)).2.2,
   C6_retry_budget_bounded.2 c6Resp "/x" 3 0⟩

/-! ## C8: the github_audit client's missing `time` import -/

/-- C8: github_audit.py's import list lacks `time`, so the rate-limit branch
of its `AsyncGitHubClient.get` raises NameError inside the try block; the
generic `except` handler then sleeps 2^attempt seconds instead of waiting
until the reset epoch, and the attempt is consumed from the retry budget
(three rate-limited responses exhaust the 3-attempt budget with sleeps
1, 2, 4). -/
theorem C8_audit_rate_limit_name_error :
    auditHasTime = false ∧
    (∀ (respF : Nat → GHResp) (endpoint : String) (reset clock : Nat)
      (j : JVal), respF 0 = .rateLimited reset → respF 1 = .ok j →
      auditGet respF endpoint 3 clock = ⟨.ok j, 2, [1], clock + 1⟩) ∧
    (∀ (respF : Nat → GHResp) (endpoint : String) (reset clock : Nat),
      (∀ k, respF k = .rateLimited reset) →
      (auditGet respF endpoint 3 clock).result =
          .error ("GitHub API GET " ++ endpoint ++ " failed after " ++
            toString 3 ++ " attempts.") ∧
      (auditGet respF endpoint 3 clock).calls = 3 ∧
      (auditGet respF endpoint 3 clock).sleeps = [1, 2, 4]) := by
  refine ⟨rfl, ?_, ?_⟩
  · intro respF endpoint reset clock j h0 h1
    simp [auditGet, auditGetLoop, h0, h1,
      show auditHasTime = false from rfl]
  · intro respF endpoint reset clock h
    refine ⟨?_, ?_, ?_⟩ <;>
      simp [auditGet, auditGetLoop, h 0, h 1, h 2,
        show auditHasTime = false from rfl]

/-- C8 witness: a rate-limited response with reset epoch 1000 at clock 0
causes a 1-second sleep (2^0, not 1000) and consumes an attempt; an
all-rate-limited oracle exhausts the budget after 3 calls with sleeps
1, 2, 4. -/
theorem C8_audit_rate_limit_name_error_witness :
    auditGet c8Resp "/rl" 3 0 = ⟨.ok .null, 2, [1], 1⟩ ∧
    (auditGet c8AllResp "/rl" 3 0).calls = 3 ∧
    (auditGet c8AllResp "/rl" 3 0).sleeps = [1, 2, 4] :=
  ⟨C8_audit_rate_limit_name_error.2.1 c8Resp "/rl" 1000 0 .null rfl rfl,
   (C8_audit_rate_limit_name_error.2.2 c8AllResp "/rl" 1000 0
      (fun _ => rfl)).2.1,
   (C8_audit_rate_limit_name_error.2.2 c8AllResp "/rl" 1000 0
      (fun _ => rfl)).2.2⟩

/-! ## C10: the CLI's rebuild_cache keyword argument -/

/-- C10: the CLI's "All code files" path always passes a `rebuild_cache`
keyword argument, but `async_analyze_code_files` has no such parameter and
no `**kwargs`, so Python's argument binding fails and every such call raises
TypeError before any file analysis begins. -/
theorem C10_rebuild_cache_kwarg_type_error (ctx : ACtx) (streamOn : Bool)
    (files : List PyFile) (retryCallback : Option (List PyFile → Bool))
    (k0 : Nat) :
    cliAnalyzeFilesCall ctx streamOn files retryCallback k0 = none ∧
    asyncAnalyzeCodeFilesParams.contains "rebuild_cache" = false :=
  ⟨rfl, rfl⟩

/-! ## C7: cache scope directory sanitization -/

/-- C7 counterexample: the branch name `"my branch"` contains a space, and
the derived cache scope directory name keeps that space —
`get_cache_path` sanitizes only `/`, refuting the claim that spaces and
other filesystem-unsafe characters are replaced. -/
theorem C7_cache_dir_space_cex :
    cacheScopeDir "owner/repo" (some "my branch") none =
        "owner_repo_my branch" ∧
    ' ' ∈ (cacheScopeDir "owner/repo" (some "my branch") none).toList :=
  ⟨rfl, by decide⟩

/-- C7 amended: the cache scope directory name is built from the repository
name, the branch or "default", and an optional `_pr<N>` suffix, but the only
character sanitized is `/` (replaced by `_`): the derived name never
contains `/`, while spaces and other unsafe characters pass through. -/
theorem C7_cache_dir_no_slash (repository : String) (branch : Option String)
    (pr : Option Nat) :
    '/' ∉ (cacheScopeDir repository branch pr).toList := by
  intro h
  simp only [cacheScopeDir, toList_append] at h
  rcases List.mem_append.1 h with h | h
  · rcases List.mem_append.1 h with h | h
    · rcases List.mem_append.1 h with h | h
      · exact replaceChar_no_slash _ h
      · exact absurd h (by decide)
    · exact replaceChar_no_slash _ h
  · exact prSuffix_no_slash pr h

/-- C7 amended, witness: a concrete scope with a spaced branch name and a PR
number has no `/` in its directory name. -/
theorem C7_cache_dir_no_slash_witness :
    '/' ∉ (cacheScopeDir "owner/repo" (some "my branch") (some 7)).toList :=
  C7_cache_dir_no_slash "owner/repo" (some "my branch") (some 7)

/-! ## C2: the parallel analysis cache -/

/-- Reading back a freshly written cache path succeeds. -/
theorem CacheFS.read_write_self (c : CacheFS) (p : String) (e : AEntry) :
    (c.write p e).read p = some e := by
  simp [CacheFS.read, CacheFS.write, List.lookup]

/-- A cache write never removes an existing readable path. -/
theorem CacheFS.read_write_mono {c : CacheFS} {p : String} (q : String)
    (v : AEntry) (h : ∃ e, c.read p = some e) :
    ∃ e, (c.write q v).read p = some e := by
  by_cases hpq : q = p
  · exact ⟨v, hpq ▸ CacheFS.read_write_self c q v⟩
  · obtain ⟨e, he⟩ := h
    refine ⟨e, ?_⟩
    have hbeq : (p == q) = false :=
      beq_eq_false_iff_ne.mpr (fun hp => hpq hp.symm)
    simpa [CacheFS.read, CacheFS.write, List.lookup, hbeq] using he

/-- Against an empty cache, the partition loop classifies every file with
truthy content as uncached, in order. -/
theorem afpPartition_empty_cache (hashF : String → String) (repo : String)
    (branch : Option String) (pr : Option Nat) :
    ∀ files : List PyFile,
      (∀ f ∈ files, (f.content.getD "").toList.isEmpty = false) →
      afpPartition hashF repo branch pr ⟨[]⟩ files = ([], files) := by
  intro files
  induction files with
  | nil => intro _; rfl
  | cons f fs ih =>
    intro h
    have hf := h f (List.mem_cons_self f fs)
    have hfd : (f.content.getD "").data ≠ [] := by
      intro hnil
      rw [show (f.content.getD "").toList = (f.content.getD "").data from rfl,
        hnil] at hf
      simp [List.isEmpty] at hf
    rw [afpPartition]
    simp [hfd, CacheFS.read, List.lookup,
      ih (fun g hg => h g (List.mem_cons_of_mem f hg))]

/-- When every file's path is already readable, the partition loop leaves
nothing uncached. -/
theorem afpPartition_all_cached (hashF : String → String) (repo : String)
    (branch : Option String) (pr : Option Nat) (cache : CacheFS) :
    ∀ files : List PyFile,
      (∀ f ∈ files, (f.content.getD "").toList.isEmpty = false ∧
        ∃ e, cache.read (filePath hashF repo branch pr f) = some e) →
      (afpPartition hashF repo branch pr cache files).2 = [] := by
  intro files
  induction files with
  | nil => intro _; rfl
  | cons f fs ih =>
    intro h
    obtain ⟨hne, e, he⟩ := h f (List.mem_cons_self f fs)
    have hfd : (f.content.getD "").data ≠ [] := by
      intro hnil
      rw [show (f.content.getD "").toList = (f.content.getD "").data from rfl,
        hnil] at hne
      simp [List.isEmpty] at hne
    rw [afpPartition]
    simp [hfd, he, ih (fun g hg => h g (List.mem_cons_of_mem f hg))]

/-- A single non-skipped, non-oversized file produces exactly one entry and
one inference call. -/
theorem analyze_code_files_single (ctx : ACtx) (f : PyFile) (k : Nat)
    (h1 : isEmptySkip (f.content.getD "") = false)
    (h2 : isTooLarge (f.content.getD "") = false) :
    analyze_code_files ctx [f] k =
      ([mkEntry f.filename (ctx.parseF (ctx.genF k
        (buildPrompt ctx.readme ctx.comments ctx.commits f)))], 1, k + 1) := by
  simp [analyze_code_files, h1, h2]

/-- Over a list of non-skipped, non-oversized files, the analysis loop makes
one inference call per file, returns one result per file (same filenames in
order), caches every file's path, and preserves already-readable paths. -/
theorem afpAnalyze_good (ctx : ACtx) (hashF : String → String) (repo : String)
    (branch : Option String) (pr : Option Nat) :
    ∀ (files : List PyFile) (c : CacheFS) (k : Nat),
      (∀ f ∈ files, isEmptySkip (f.content.getD "") = false ∧
        isTooLarge (f.content.getD "") = false) →
      (afpAnalyze ctx hashF repo branch pr files c k).calls = files.length ∧
      ((afpAnalyze ctx hashF repo branch pr files c k).results.map
        AEntry.filename = files.map PyFile.filename) ∧
      (∀ f ∈ files, ∃ e,
        ((afpAnalyze ctx hashF repo branch pr files c k).cache).read
          (filePath hashF repo branch pr f) = some e) ∧
      (∀ p, (∃ e, c.read p = some e) →
        ∃ e, ((afpAnalyze ctx hashF repo branch pr files c k).cache).read p =
          some e) := by
  intro files
  induction files with
  | nil =>
    intro c k _
    refine ⟨rfl, rfl, ?_, ?_⟩
    · intro f hf; cases hf
    · intro p hp; exact hp
  | cons f fs ih =>
    intro c k h
    have hf := h f (List.mem_cons_self f fs)
    have htail := fun g hg => h g (List.mem_cons_of_mem f hg)
    rw [afpAnalyze, analyze_code_files_single ctx f k hf.1 hf.2]
    dsimp only
    obtain ⟨ihCalls, ihNames, ihMem, ihMono⟩ :=
      ih (c.write (filePath hashF repo branch pr f)
        (mkEntry f.filename (ctx.parseF (ctx.genF k
          (buildPrompt ctx.readme ctx.comments ctx.commits f))))) (k + 1) htail
    refine ⟨?_, ?_, ?_, ?_⟩
    · rw [ihCalls]
      simp only [List.length_cons]
      omega
    · simpa [mkEntry] using ihNames
    · intro g hg
      rcases List.mem_cons.1 hg with hgf | hgfs
      · subst hgf
        exact ihMono _ ⟨_, CacheFS.read_write_self ..⟩
      · exact ihMem g hgfs
    · intro p hp
      exact ihMono p (CacheFS.read_write_mono _ _ hp)

/-- `analyze_files_parallel` in terms of its partition and analysis loops. -/
theorem analyze_files_parallel_eq (ctx : ACtx) (hashF : String → String)
    (repo : String) (branch : Option String) (pr : Option Nat)
    (cache0 : CacheFS) (files : List PyFile) (k0 : Nat) :
    analyze_files_parallel ctx hashF repo branch pr cache0 files k0 =
      ⟨(afpPartition hashF repo branch pr cache0 files).1 ++
        (afpAnalyze ctx hashF repo branch pr
          (afpPartition hashF repo branch pr cache0 files).2 cache0 k0).results,
       (afpAnalyze ctx hashF repo branch pr
          (afpPartition hashF repo branch pr cache0 files).2 cache0 k0).cache,
       (afpAnalyze ctx hashF repo branch pr
          (afpPartition hashF repo branch pr cache0 files).2 cache0 k0).calls,
       (afpAnalyze ctx hashF repo branch pr
          (afpPartition hashF repo branch pr cache0 files).2 cache0 k0).counter⟩ := by
  unfold analyze_files_parallel
  rcases h1 : afpPartition hashF repo branch pr cache0 files with ⟨cached, uncached⟩
  simp [h1]

/-- C2 counterexample: three files of which two share identical content,
starting from an empty cache, cause 3 inference calls, not the claimed 2 —
the cached/uncached partition is computed entirely before any analysis runs,
so a content hash first analyzed in this run cannot be served from cache in
the same run. -/
theorem C2_dedup_within_run_cex :
    (analyze_files_parallel okCtx id "o/r" (some "main") none ⟨[]⟩
        scenarioFiles 0).calls = 3 ∧
    (analyze_files_parallel okCtx id "o/r" (some "main") none ⟨[]⟩
        scenarioFiles 0).calls ≠ 2 :=
  ⟨rfl, by decide⟩

/-- C2 amended: starting from an empty cache, `analyze_files_parallel` makes
exactly one inference call per (analyzable) input file — duplicate contents
within one run are each paid for — every input file's name appears in the
returned list, and a second run over the same inputs against the cache
produced by the first run makes 0 inference calls. -/
theorem C2_one_call_per_file_then_rerun_cached (ctx : ACtx)
    (hashF : String → String) (repo : String) (branch : Option String)
    (pr : Option Nat) (files : List PyFile) (k0 k1 : Nat)
    (hgood : ∀ f ∈ files, isEmptySkip (f.content.getD "") = false ∧
      isTooLarge (f.content.getD "") = false) :
    (analyze_files_parallel ctx hashF repo branch pr ⟨[]⟩ files k0).calls =
        files.length ∧
    (∀ f ∈ files, f.filename ∈
      (analyze_files_parallel ctx hashF repo branch pr ⟨[]⟩ files
        k0).results.map AEntry.filename) ∧
    (analyze_files_parallel ctx hashF repo branch pr
        (analyze_files_parallel ctx hashF repo branch pr ⟨[]⟩ files k0).cache
        files k1).calls = 0 := by
  have hne : ∀ f ∈ files, (f.content.getD "").toList.isEmpty = false := by
    intro f hf
    have h1 := (hgood f hf).1
    unfold isEmptySkip at h1
    exact (Bool.or_eq_false_iff.mp h1).1
  have hpart := afpPartition_empty_cache hashF repo branch pr files hne
  obtain ⟨hCalls, hNames, hMem, -⟩ :=
    afpAnalyze_good ctx hashF repo branch pr files ⟨[]⟩ k0 hgood
  refine ⟨?_, ?_, ?_⟩
  · rw [analyze_files_parallel_eq, hpart]
    exact hCalls
  · intro f hf
    rw [analyze_files_parallel_eq, hpart]
    simp only [List.map_append]
    refine List.mem_append.2 (Or.inr ?_)
    rw [hNames]
    exact List.mem_map.2 ⟨f, hf, rfl⟩
  · have hcache1 :
        (analyze_files_parallel ctx hashF repo branch pr ⟨[]⟩ files k0).cache =
        (afpAnalyze ctx hashF repo branch pr files ⟨[]⟩ k0).cache := by
      rw [analyze_files_parallel_eq, hpart]
    rw [analyze_files_parallel_eq]
    rw [afpPartition_all_cached hashF repo branch pr _ files
      (fun f hf => ⟨hne f hf, by rw [hcache1]; exact hMem f hf⟩)]
    rfl

/-- C2 amended, witness: the spec scenario (three files, two sharing
content, empty cache) makes 3 calls, returns all three filenames, and a
second run makes 0 calls. -/
theorem C2_one_call_per_file_then_rerun_cached_witness :
    (analyze_files_parallel okCtx id "o/r" (some "main") none ⟨[]⟩
        scenarioFiles 0).calls = scenarioFiles.length ∧
    (∀ f ∈ scenarioFiles, f.filename ∈
      (analyze_files_parallel okCtx id "o/r" (some "main") none ⟨[]⟩
        scenarioFiles 0).results.map AEntry.filename) ∧
    (analyze_files_parallel okCtx id "o/r" (some "main") none
        (analyze_files_parallel okCtx id "o/r" (some "main") none ⟨[]⟩
          scenarioFiles 0).cache scenarioFiles 0).calls = 0 :=
  C2_one_call_per_file_then_rerun_cached okCtx id "o/r" (some "main") none
    scenarioFiles 0 0 (by decide)

/-! ## C3: oversized files in the batch orchestrator -/

/-- `'a'` is not whitespace, so `dropWhile` keeps an all-`'a'` list. -/
theorem dropWhile_replicate_a (n : Nat) :
    (List.replicate n 'a').dropWhile isPySpace = List.replicate n 'a' := by
  cases n with
  | zero => rfl
  | succ m =>
    rw [List.replicate_succ, List.dropWhile_cons,
      show isPySpace 'a' = false from rfl]
    simp

/-- Stripping an all-`'a'` list changes nothing. -/
theorem pyStripL_replicate_a (n : Nat) :
    pyStripL (List.replicate n 'a') = List.replicate n 'a' := by
  unfold pyStripL
  rw [dropWhile_replicate_a, List.reverse_replicate, dropWhile_replicate_a,
    List.reverse_replicate]

/-- `toList` of a constructed string is its character list. -/
theorem toList_mk (l : List Char) : (String.mk l).toList = l := rfl

/-- 100001 characters as a cons for rewriting. -/
theorem replicate_100001_eq :
    List.replicate 100001 'a' = 'a' :: List.replicate 100000 'a' := by
  rw [show (100001 : Nat) = 100000 + 1 from rfl, List.replicate_succ]

/-- The oversized content is not skipped as empty. -/
theorem big_not_empty : isEmptySkip bigContent = false := by
  unfold isEmptySkip bigContent pyStrip
  rw [toList_mk, toList_mk, pyStripL_replicate_a, replicate_100001_eq]
  rw [List.isEmpty_cons, Bool.or_self]

/-- The oversized content trips the size threshold. -/
theorem big_too_large : isTooLarge bigContent = true := by
  unfold isTooLarge bigContent
  rw [show (String.mk (List.replicate 100001 'a')).length =
      (List.replicate 100001 'a').length from rfl,
    List.length_replicate,
    show decide ((100001 : Nat) > 100000) = true from rfl, Bool.true_or]

/-- The queue built over the single oversized file: one placeholder entry and
nothing queued for inference. -/
theorem buildQueue_big : buildQueue [bigFile] = ([tooLargeEntry "big.py"], []) := by
  rw [buildQueue]
  rw [show bigFile.content.getD "" = bigContent from rfl]
  rw [if_neg (fun hcontra =>
    Bool.false_ne_true (big_not_empty.symm.trans hcontra))]
  rw [if_pos big_too_large]
  rfl

/-- C3, evaluated at the failing input: for a file whose content exceeds the
size threshold, `async_analyze_code_files` makes zero inference calls and
builds the placeholder entry, but the placeholder lands only in the internal
`analyses` list — the function's returned list (`[r for r in results if r]`)
is empty, contradicting the claim that the placeholder appears in the
returned result list. -/
theorem runPass_eq (ctx : ACtx) (streamOn : Bool) (files : List PyFile)
    (k : Nat) :
    runPass ctx streamOn files k =
      ⟨(buildQueue files).1 ++
        (processQueued ctx streamOn (buildQueue files).2 k).results.filterMap id,
       (processQueued ctx streamOn (buildQueue files).2 k).results,
       (processQueued ctx streamOn (buildQueue files).2 k).streamed,
       (processQueued ctx streamOn (buildQueue files).2 k).failed,
       ((buildQueue files).2).length,
       (processQueued ctx streamOn (buildQueue files).2 k).counter⟩ := by
  unfold runPass
  rcases h : buildQueue files with ⟨as, qs⟩
  simp [h]

theorem runPass_big (k : Nat) :
    runPass okCtx true [bigFile] k = ⟨[tooLargeEntry "big.py"], [], [], [], 0, k⟩ := by
  rw [runPass_eq, buildQueue_big]
  dsimp only
  rw [show processQueued okCtx true [] k = ⟨[], [], [], k⟩ from rfl]
  rw [show List.filterMap id ([] : List (Option AEntry)) = [] from rfl]
  rw [List.append_nil]
  rfl

/-- C3, evaluated at the failing input: for a file whose content exceeds the
size threshold, `async_analyze_code_files` makes zero inference calls and
builds the placeholder entry, but the placeholder lands only in the internal
`analyses` list — the function's returned list (`[r for r in results if r]`)
is empty, contradicting the claim that the placeholder appears in the
returned result list. -/
theorem C3_too_large_zero_calls_placeholder_dropped :
    async_analyze_code_files okCtx true [bigFile] (some (fun _ => true)) 0 =
      ⟨[tooLargeEntry "big.py"], [], [], [], 0, 0⟩ := by
  unfold async_analyze_code_files
  rw [runPass_big]
  dsimp only
  simp only [List.isEmpty_nil, Bool.not_true, Bool.false_and,
    Bool.false_eq_true, if_false]
  rfl

/-- For contrast, the synchronous `analyze_code_files` does return the
placeholder for the same oversized file, with zero inference calls. -/
theorem sync_too_large_placeholder_returned :
    analyze_code_files okCtx [bigFile] 0 = ([tooLargeEntry "big.py"], 0, 0) := by
  rw [analyze_code_files]
  rw [show bigFile.content.getD "" = bigContent from rfl]
  rw [if_neg (fun hcontra =>
    Bool.false_ne_true (big_not_empty.symm.trans hcontra))]
  rw [if_pos big_too_large]
  rfl

/-! ## C4: a batch whose inference calls all fail -/

/-- `filterMap id` over an all-`none` results array is empty. -/
theorem filterMap_id_replicate_none (n : Nat) :
    (List.replicate n (none : Option AEntry)).filterMap id = [] := by
  induction n with
  | zero => rfl
  | succ m ih =>
    rw [List.replicate_succ, List.filterMap_cons]
    simp only [id_eq]
    exact ih

/-- When every inference response is empty or carries the error marker, the
batch loop marks every queued file failed, stores `None` in every results
slot, and streams nothing. -/
theorem processQueued_all_fail (ctx : ACtx) (streamOn : Bool)
    (hfail : ∀ k p, ctx.genF k p = "" ∨
      strHasSub (ctx.genF k p) "LLM error" = true) :
    ∀ (qs : List PyFile) (k : Nat),
      processQueued ctx streamOn qs k =
        ⟨List.replicate qs.length none, [], qs, k + qs.length⟩ := by
  intro qs
  induction qs with
  | nil => intro k; simp [processQueued]
  | cons f fs ih =>
    intro k
    rw [processQueued]
    have hcond : ((ctx.genF k
          (buildPrompt ctx.readme ctx.comments ctx.commits f)).toList.isEmpty ||
        strHasSub (ctx.genF k (buildPrompt ctx.readme ctx.comments ctx.commits f))
          "LLM error") = true := by
      rcases hfail k (buildPrompt ctx.readme ctx.comments ctx.commits f) with h | h
      · rw [h]; rfl
      · rw [h]; simp
    simp only [hcond, if_true]
    rw [ih (k + 1)]
    simp [List.replicate_succ]
    omega

/-- A one-pass run with an all-failing oracle: every slot `None`, nothing
streamed, every queued file failed. -/
theorem runPass_all_fail (ctx : ACtx) (streamOn : Bool)
    (hfail : ∀ k p, ctx.genF k p = "" ∨
      strHasSub (ctx.genF k p) "LLM error" = true)
    (files : List PyFile) (k : Nat) :
    runPass ctx streamOn files k =
      ⟨(buildQueue files).1, List.replicate ((buildQueue files).2).length none,
        [], (buildQueue files).2, ((buildQueue files).2).length,
        k + ((buildQueue files).2).length⟩ := by
  unfold runPass
  rcases h : buildQueue files with ⟨as, qs⟩
  dsimp only
  rw [processQueued_all_fail ctx streamOn hfail qs k]
  simp [h, filterMap_id_replicate_none]

/-- C4: if every inference call fails (empty response or the literal
`'LLM error'` marker), `async_analyze_code_files` still returns normally,
with a returned list that excludes all failed files (it is empty) and with
nothing streamed to the partial report for any failed file; the failed files
are collected instead. -/
theorem C4_all_failures_excluded_not_streamed (ctx : ACtx) (streamOn : Bool)
    (files : List PyFile) (retryCallback : Option (List PyFile → Bool))
    (k0 : Nat)
    (hfail : ∀ k p, ctx.genF k p = "" ∨
      strHasSub (ctx.genF k p) "LLM error" = true) :
    (async_analyze_code_files ctx streamOn files retryCallback k0).returned =
        [] ∧
    (async_analyze_code_files ctx streamOn files retryCallback k0).streamed =
        [] ∧
    (async_analyze_code_files ctx streamOn files retryCallback k0).failed =
        (buildQueue files).2 := by
  rcases retryCallback with _ | cb
  · unfold async_analyze_code_files
    rw [runPass_all_fail ctx streamOn hfail files k0]
    simp [filterMap_id_replicate_none]
  · unfold async_analyze_code_files
    rw [runPass_all_fail ctx streamOn hfail files k0]
    dsimp only
    split
    · rw [runPass_all_fail ctx streamOn hfail ((buildQueue files).2)
        (k0 + ((buildQueue files).2).length)]
      simp [filterMap_id_replicate_none]
    · simp [filterMap_id_replicate_none]

/-- C4 witness: a concrete file against the always-failing oracle, with a
retry callback that approves retrying: nothing returned, nothing streamed,
the file collected as failed. -/
theorem C4_all_failures_excluded_not_streamed_witness :
    (async_analyze_code_files failCtx true [fileA] (some (fun _ => true))
        0).returned = [] ∧
    (async_analyze_code_files failCtx true [fileA] (some (fun _ => true))
        0).streamed = [] ∧
    (async_analyze_code_files failCtx true [fileA] (some (fun _ => true))
        0).failed = (buildQueue [fileA]).2 :=
  C4_all_failures_excluded_not_streamed failCtx true [fileA]
    (some (fun _ => true)) 0 (fun _ _ => Or.inr rfl)

/-! ## C9: retry-pass results and the returned list -/

/-- Every failed file of a pass was queued in that pass. -/
theorem processQueued_failed_subset (ctx : ACtx) (streamOn : Bool) :
    ∀ (qs : List PyFile) (k : Nat) (f : PyFile),
      f ∈ (processQueued ctx streamOn qs k).failed → f ∈ qs := by
  intro qs
  induction qs with
  | nil => intro k f hf; simp [processQueued] at hf
  | cons g gs ih =>
    intro k f hf
    rw [processQueued] at hf
    by_cases hc : ((ctx.genF k
          (buildPrompt ctx.readme ctx.comments ctx.commits g)).toList.isEmpty ||
        strHasSub (ctx.genF k
          (buildPrompt ctx.readme ctx.comments ctx.commits g)) "LLM error") = true
    · rw [if_pos hc] at hf
      rcases List.mem_cons.1 hf with h | h
      · exact h ▸ List.mem_cons_self g gs
      · exact List.mem_cons_of_mem g (ih (k + 1) f h)
    · rw [if_neg hc] at hf
      exact List.mem_cons_of_mem g (ih (k + 1) f hf)

/-- Every success entry of a pass carries the filename of a queued file. -/
theorem processQueued_success_filenames (ctx : ACtx) (streamOn : Bool) :
    ∀ (qs : List PyFile) (k : Nat) (e : AEntry),
      e ∈ (processQueued ctx streamOn qs k).results.filterMap id →
        e.filename ∈ qs.map PyFile.filename := by
  intro qs
  induction qs with
  | nil => intro k e he; simp [processQueued] at he
  | cons g gs ih =>
    intro k e he
    rw [processQueued] at he
    by_cases hc : ((ctx.genF k
          (buildPrompt ctx.readme ctx.comments ctx.commits g)).toList.isEmpty ||
        strHasSub (ctx.genF k
          (buildPrompt ctx.readme ctx.comments ctx.commits g)) "LLM error") = true
    · rw [if_pos hc] at he
      simp only [List.filterMap_cons, id_eq] at he
      exact List.mem_cons_of_mem _ (ih (k + 1) e he)
    · rw [if_neg hc] at he
      simp only [List.filterMap_cons, id_eq] at he
      rcases List.mem_cons.1 he with h | h
      · rw [h]
        exact List.mem_cons_self _ _
      · exact List.mem_cons_of_mem _ (ih (k + 1) e h)

/-- Within one pass over a queue with distinct filenames, a success entry's
filename never appears among the failed files: each queued file either
succeeds or fails, not both. -/
theorem processQueued_success_failed_disjoint (ctx : ACtx) (streamOn : Bool) :
    ∀ (qs : List PyFile) (k : Nat),
      (qs.map PyFile.filename).Nodup →
      ∀ e ∈ (processQueued ctx streamOn qs k).results.filterMap id,
        e.filename ∉ (processQueued ctx streamOn qs k).failed.map
          PyFile.filename := by
  intro qs
  induction qs with
  | nil => intro k _ e he; simp [processQueued] at he
  | cons g gs ih =>
    intro k hnd e he
    have hndTail : (gs.map PyFile.filename).Nodup :=
      (List.nodup_cons.1 (by simpa using hnd)).2
    have hgNotTail : g.filename ∉ gs.map PyFile.filename :=
      (List.nodup_cons.1 (by simpa using hnd)).1
    rw [processQueued] at he ⊢
    by_cases hc : ((ctx.genF k
          (buildPrompt ctx.readme ctx.comments ctx.commits g)).toList.isEmpty ||
        strHasSub (ctx.genF k
          (buildPrompt ctx.readme ctx.comments ctx.commits g)) "LLM error") = true
    · rw [if_pos hc] at he ⊢
      simp only [List.filterMap_cons, id_eq] at he
      intro hmem
      simp only [List.map_cons] at hmem
      rcases List.mem_cons.1 hmem with h | h
      · exact hgNotTail (h ▸ processQueued_success_filenames ctx streamOn gs
          (k + 1) e he)
      · exact ih (k + 1) hndTail e he h
    · rw [if_neg hc] at he ⊢
      simp only [List.filterMap_cons, id_eq] at he
      rcases List.mem_cons.1 he with h | h
      · intro hmem
        rcases List.mem_map.1 hmem with ⟨f, hfFail, hfn⟩
        have hfgs : f ∈ gs :=
          processQueued_failed_subset ctx streamOn gs (k + 1) f hfFail
        have hin : e.filename ∈ gs.map PyFile.filename :=
          hfn ▸ List.mem_map.2 ⟨f, hfgs, rfl⟩
        rw [h] at hin
        exact hgNotTail (by simpa [mkEntry] using hin)
      · exact ih (k + 1) hndTail e h

/-- Queued filenames form a sublist of the input filenames. -/
theorem buildQueue_filenames_sublist :
    ∀ files : List PyFile,
      List.Sublist (((buildQueue files).2).map PyFile.filename)
        (files.map PyFile.filename) := by
  intro files
  induction files with
  | nil => simp [buildQueue]
  | cons f fs ih =>
    rcases hq : buildQueue fs with ⟨as, qs⟩
    rw [hq] at ih
    rw [buildQueue, hq]
    by_cases h1 : isEmptySkip (f.content.getD "") = true
    · rw [if_pos h1]
      exact List.Sublist.cons _ ih
    · rw [if_neg h1]
      by_cases h2 : isTooLarge (f.content.getD "") = true
      · rw [if_pos h2]
        exact List.Sublist.cons _ ih
      · rw [if_neg h2]
        exact List.Sublist.cons₂ _ ih

/-- The retry branch of `async_analyze_code_files`, written out: when the
first pass leaves failed files and the callback approves, the function runs
one more pass over the failed subset; the inner pass's successes extend
`analyses` and its writes extend the stream, while the returned list is
still built from the first pass's `results` array alone. -/
theorem aacf_retry_run (ctx : ACtx) (streamOn : Bool) (files : List PyFile)
    (cb : List PyFile → Bool) (k0 : Nat)
    (hfailed : (runPass ctx streamOn files k0).failed ≠ [])
    (hcb : cb ((runPass ctx streamOn files k0).failed) = true) :
    async_analyze_code_files ctx streamOn files (some cb) k0 =
      ⟨(runPass ctx streamOn files k0).analyses ++
        (runPass ctx streamOn (runPass ctx streamOn files k0).failed
          (runPass ctx streamOn files k0).counter).results.filterMap id,
       (runPass ctx streamOn files k0).results.filterMap id,
       (runPass ctx streamOn files k0).streamed ++
        (runPass ctx streamOn (runPass ctx streamOn files k0).failed
          (runPass ctx streamOn files k0).counter).streamed,
       (runPass ctx streamOn files k0).failed,
       (runPass ctx streamOn files k0).calls +
        (runPass ctx streamOn (runPass ctx streamOn files k0).failed
          (runPass ctx streamOn files k0).counter).calls,
       (runPass ctx streamOn (runPass ctx streamOn files k0).failed
          (runPass ctx streamOn files k0).counter).counter⟩ := by
  have hne : (runPass ctx streamOn files k0).failed.isEmpty = false := by
    cases hfl : (runPass ctx streamOn files k0).failed with
    | nil => exact absurd hfl hfailed
    | cons a l => rfl
  unfold async_analyze_code_files
  dsimp only
  rw [hne, hcb]
  rfl

/-- C9: when a retry callback approves retrying, the recursive retry pass's
successes are appended to the internal `analyses` list and streamed to the
partial report, but the function's returned list is built only from the
first-pass `results` array, so (with distinct input filenames) every
retry-pass success is absent from the returned list. -/
theorem C9_retry_successes_not_returned (ctx : ACtx) (streamOn : Bool)
    (files : List PyFile) (cb : List PyFile → Bool) (k0 : Nat)
    (hfailed : (runPass ctx streamOn files k0).failed ≠ [])
    (hcb : cb ((runPass ctx streamOn files k0).failed) = true)
    (hnodup : (files.map PyFile.filename).Nodup) :
    (async_analyze_code_files ctx streamOn files (some cb) k0).returned =
      (runPass ctx streamOn files k0).results.filterMap id ∧
    (async_analyze_code_files ctx streamOn files (some cb) k0).analyses =
      (runPass ctx streamOn files k0).analyses ++
        (runPass ctx streamOn (runPass ctx streamOn files k0).failed
          (runPass ctx streamOn files k0).counter).results.filterMap id ∧
    (async_analyze_code_files ctx streamOn files (some cb) k0).streamed =
      (runPass ctx streamOn files k0).streamed ++
        (runPass ctx streamOn (runPass ctx streamOn files k0).failed
          (runPass ctx streamOn files k0).counter).streamed ∧
    (∀ e ∈ (runPass ctx streamOn (runPass ctx streamOn files k0).failed
          (runPass ctx streamOn files k0).counter).results.filterMap id,
      e ∈ (async_analyze_code_files ctx streamOn files (some cb) k0).analyses ∧
      e ∉ (async_analyze_code_files ctx streamOn files (some cb) k0).returned) := by
  rw [aacf_retry_run ctx streamOn files cb k0 hfailed hcb]
  refine ⟨rfl, rfl, rfl, ?_⟩
  intro e he
  constructor
  · exact List.mem_append_right _ he
  · intro hmem
    dsimp only at hmem
    have hfail2 : (runPass ctx streamOn files k0).failed =
        (processQueued ctx streamOn (buildQueue files).2 k0).failed := by
      rw [runPass_eq]
    rw [runPass_eq] at he
    have h1 : e.filename ∈
        ((buildQueue ((runPass ctx streamOn files k0).failed)).2).map
          PyFile.filename :=
      processQueued_success_filenames ctx streamOn _ _ e he
    have h2 : e.filename ∈
        ((runPass ctx streamOn files k0).failed).map PyFile.filename :=
      (buildQueue_filenames_sublist _).subset h1
    rw [hfail2] at h2
    rw [runPass_eq] at hmem
    have h5 : (((buildQueue files).2).map PyFile.filename).Nodup :=
      (buildQueue_filenames_sublist files).nodup hnodup
    exact processQueued_success_failed_disjoint ctx streamOn
      (buildQueue files).2 k0 h5 e hmem h2

/-- C9 witness: two files; the first succeeds, the second fails on the first
pass and succeeds on the retry pass. -/
theorem C9_retry_successes_not_returned_witness :
    (async_analyze_code_files retryCtx true c9Files (some (fun _ => true))
        0).returned = c9P.results.filterMap id ∧
    (async_analyze_code_files retryCtx true c9Files (some (fun _ => true))
        0).analyses = c9P.analyses ++ c9Q.results.filterMap id ∧
    (async_analyze_code_files retryCtx true c9Files (some (fun _ => true))
        0).streamed = c9P.streamed ++ c9Q.streamed ∧
    (∀ e ∈ c9Q.results.filterMap id,
      e ∈ (async_analyze_code_files retryCtx true c9Files
        (some (fun _ => true)) 0).analyses ∧
      e ∉ (async_analyze_code_files retryCtx true c9Files
        (some (fun _ => true)) 0).returned) :=
  C9_retry_successes_not_returned retryCtx true c9Files (fun _ => true) 0
    (by decide) rfl (by decide)

/-! ## C5: the PR snapshot README comes from the base ref -/

/-- Binding a successful `Except` runs the continuation. -/
theorem exceptBind_ok {α β : Type} (a : α) (f : α → Except String β) :
    ((Except.ok a : Except String α) >>= f) = f a := rfl

/-- `pure` in the `Except` monad is `ok`. -/
theorem exceptPure_eq {α : Type} (a : α) :
    (pure a : Except String α) = .ok a := rfl

/-- C5: in pull-request mode the fetcher asks the remote for the README with
`ref = base branch` — the pull request's base ref, extracted from the PR
metadata — and returns its decoded content; nothing constrains what the
remote would serve for the head ref, so the snapshot README is the base-ref
one regardless of any README change on the head ref. -/
theorem C5_pr_readme_from_base_ref (g : GFetch)
    (decode : String → Option String) (owner repo : String) (n : Nat)
    (title body user created state url baseRef headRef enc oldReadme : String)
    (merged : Bool)
    (h1 : g (prEp owner repo n) [] =
      .ok (mkPrJson title body user created state merged baseRef headRef url))
    (h2 : g (prFilesEp owner repo n) [] = .ok (.arr []))
    (h3 : g (issueCommentsEp owner repo n) [] = .ok (.arr []))
    (h4 : g (reviewCommentsEp owner repo n) [] = .ok (.arr []))
    (h5 : g (prCommitsEp owner repo n) [] = .ok (.arr []))
    (h6 : g (readmeEp owner repo) [("ref", baseRef)] =
      .ok (.obj [("content", .s enc)]))
    (h7 : decode enc = some oldReadme) :
    async_fetch_repo_data_pr g decode owner repo n =
      .ok ⟨[], [], [], oldReadme,
        ⟨title, body, user, created, state, merged, baseRef, headRef, url⟩⟩ := by
  simp [async_fetch_repo_data_pr, h1, h2, h3, h4, h5, h6, h7,
    exceptBind_ok, exceptPure_eq, req, mkPrJson, JVal.look, JVal.asStr,
    JVal.asArr, List.lookup, List.mapM_nil, Option.bind]
  rfl

/-- C5 witness: a concrete remote whose base-ref README decodes to `"# Old"`
while its head-ref README exists and decodes to `"# New"`; the snapshot's
README is `"# Old"`. -/
theorem C5_pr_readme_from_base_ref_witness :
    async_fetch_repo_data_pr c5G c5Decode "o" "r" 1 =
      .ok ⟨[], [], [], "# Old",
        ⟨"Title", "Body", "alice", "2024-01-01", "open", false, "main",
          "feature", "https://x"⟩⟩ ∧
    c5G (readmeEp "o" "r") [("ref", "feature")] =
      .ok (.obj [("content", .s "ENC-NEW")]) ∧
    c5Decode "ENC-NEW" = some "# New" :=
  ⟨C5_pr_readme_from_base_ref c5G c5Decode "o" "r" 1 "Title" "Body" "alice"
      "2024-01-01" "open" "https://x" "main" "feature" "ENC-OLD" "# Old" false
      rfl rfl rfl rfl rfl rfl rfl,
    rfl, rfl⟩

end Llamalytics
